import Mathlib

/-!
Shallow embedding of the school complaint system (`src/app.py`).

The program keeps all mutable tables in a single ambient session state
(`st.session_state`); we model that state as the structure `SessionState`
below and every operation as a pure function from a state (plus its
explicit arguments) to a result and a new state.

Modelling conventions, each noted again at the definition it concerns:
* Statuses, categories, urgencies, roles, ids and notes are the plain
  strings the source uses (the Korean literals `대기중`/`처리중`/`완료`
  are the spec's `pending`/`in_progress`/`resolved`, `긴급`/`보통` are
  `urgent`/`normal`).
* `datetime.now().isoformat()` is an external input; each operation that
  reads the clock takes an explicit `now : String` argument.
* Python dicts become association lists (`List (String × α)`) in
  insertion order; `d[k] = v` overwrites in place or appends, `k in d`
  and `d.get` are key search.  Python sets become `Finset String`.
* Firebase is an external collaborator; each ComplaintSystem operation
  additionally returns the list of `FirebaseOp` writes it attempts, so
  that "no persistence write is attempted" is expressible.  The writes
  of the auth operations are not relevant to any claim and are omitted.
* `hashlib.sha256(...).hexdigest()` is an external function; operations
  that hash a password take the hash function as a parameter.
* `uuid.uuid4()` randomness: `generate_teacher_code` takes the freshly
  generated token as a parameter.
-/

/-- One entry of a complaint's `history` list:
`{'status': ..., 'timestamp': ..., 'note': ...}`. -/
structure HistoryEntry where
  status : String
  timestamp : String
  note : String
deriving DecidableEq, Repr

/-- A complaint record as built by `ComplaintSystem.create_complaint`. -/
structure Complaint where
  id : String
  title : String
  content : String
  category : String
  urgency : String
  urgency_value : Nat
  status : String
  created_by : String
  created_at : String
  assigned_to : Option String
  history : List HistoryEntry
deriving DecidableEq, Repr

/-- A user record of `st.session_state.user_db`.  Parent records carry an
extra `student_name` field; teacher and admin records do not
(`student_name := none`). -/
structure UserData where
  password_hash : String
  role : String
  name : String
  student_name : Option String
  created_at : String
deriving DecidableEq, Repr

/-- A record of `st.session_state.teacher_db`: the categories a teacher
may act on plus the master flag. -/
structure TeacherAssignment where
  categories : List String
  is_master : Bool
deriving DecidableEq, Repr

/-- The `st.session_state.current_user` dict built at login:
`{'id', 'name', 'role', 'permissions'}`. -/
structure CurrentUser where
  id : String
  name : String
  role : String
  permissions : List String
deriving DecidableEq, Repr

/-- A write attempted against the Firebase persistence gateway by the
ComplaintSystem operations (`save_complaint` / `update_complaint`). -/
inductive FirebaseOp where
  | saveComplaint (id : String) (c : Complaint)
  | updateComplaint (id : String) (status : String) (history : List HistoryEntry)
deriving DecidableEq, Repr

/-- Key lookup in a Python dict modelled as an association list
(`d.get(k)` / `d[k]` guarded by `k in d`). -/
def dictFind {α : Type} (db : List (String × α)) (k : String) : Option α :=
  (db.find? (fun p => p.1 == k)).map Prod.snd

/-- Python dict assignment `d[k] = v`: overwrite the entry in place when
the key exists (insertion order is preserved), append otherwise. -/
def dictSet {α : Type} (db : List (String × α)) (k : String) (v : α) :
    List (String × α) :=
  if db.any (fun p => p.1 == k) then
    db.map (fun p => if p.1 == k then (k, v) else p)
  else
    db ++ [(k, v)]

/-- `d.values()` of a Python dict. -/
def valuesOf {α : Type} (db : List (String × α)) : List α :=
  db.map Prod.snd

/-- `int(s)` on a complaint id.  Every id the system allocates is
`str(counter)`, a decimal numeral, so the Python call never raises; the
model totalises it with default `0`. -/
def strToNat (s : String) : Nat :=
  s.toNat?.getD 0

/-- `heapq.heappush(queue, item)`.  The internal array layout of the
binary heap is abstracted to the multiset of pushed items (here: the
item is appended); no operation of the program ever pops from or reads
`complaint_queue`, so only the collection's contents can matter. -/
def heappush (q : List (Nat × Nat)) (item : Nat × Nat) : List (Nat × Nat) :=
  q ++ [item]

/-- The fields of `st.session_state` that the complaint and auth systems
read or write.  Presentation-only fields (`current_user`,
`is_logged_in`, `student_registry`) are omitted: no claim touches them. -/
structure SessionState where
  complaints_db : List (String × Complaint)
  complaint_queue : List (Nat × Nat)
  processing_stack : List Nat
  complaint_counter : Nat
  user_db : List (String × UserData)
  teacher_db : List (String × TeacherAssignment)
  teacher_codes : Finset String
deriving DecidableEq

/-- Result of `ComplaintSystem.create_complaint`: the returned id, the
updated session state, and the attempted Firebase writes. -/
structure CreateResult where
  complaint_id : String
  state : SessionState
  writes : List FirebaseOp

/-- Result of `ComplaintSystem.update_complaint_status`: the returned
success flag, the updated session state, and the attempted Firebase
writes. -/
structure UpdateResult where
  success : Bool
  state : SessionState
  writes : List FirebaseOp

/-- Result of the auth signup operations: the `(bool, message)` pair the
source returns, plus the updated session state. -/
structure SignupResult where
  success : Bool
  message : String
  state : SessionState

/-- `ComplaintSystem.create_complaint(title, content, category, urgency,
user_id)` (src/app.py lines 299-328).  The two `datetime.now()` calls it
makes are nanoseconds apart and are modelled by the single clock input
`now`. -/
def create_complaint (ss : SessionState)
    (title content category urgency user_id now : String) : CreateResult :=
  let complaint_id := toString ss.complaint_counter
  let counter' := ss.complaint_counter + 1
  let urgency_value : Nat := if urgency == "긴급" then 1 else 2
  let complaint : Complaint :=
    { id := complaint_id
      title := title
      content := content
      category := category
      urgency := urgency
      urgency_value := urgency_value
      status := "대기중"
      created_by := user_id
      created_at := now
      assigned_to := none
      history := [{ status := "대기중", timestamp := now, note := "민원 등록됨" }] }
  { complaint_id := complaint_id
    state :=
      { ss with
        complaint_counter := counter'
        complaint_queue :=
          heappush ss.complaint_queue (urgency_value, strToNat complaint_id)
        complaints_db := dictSet ss.complaints_db complaint_id complaint }
    writes := [FirebaseOp.saveComplaint complaint_id complaint] }

/-- `ComplaintSystem.update_complaint_status(complaint_id, new_status,
note="")` (src/app.py lines 330-353).  `str(complaint_id)` is the
identity here because every caller passes the complaint's string id. -/
def update_complaint_status (ss : SessionState)
    (complaint_id new_status note now : String) : UpdateResult :=
  match dictFind ss.complaints_db complaint_id with
  | none => { success := false, state := ss, writes := [] }
  | some complaint =>
      let new_history := complaint.history ++
        [{ status := new_status
           timestamp := now
           note := if note == "" then "상태 변경: " ++ new_status else note }]
      let complaint' := { complaint with status := new_status, history := new_history }
      let stack' :=
        if new_status == "완료" && ss.processing_stack.contains (strToNat complaint_id)
        then ss.processing_stack.erase (strToNat complaint_id)
        else ss.processing_stack
      { success := true
        state :=
          { ss with
            complaints_db := dictSet ss.complaints_db complaint_id complaint'
            processing_stack := stack' }
        writes := [FirebaseOp.updateComplaint complaint_id new_status new_history] }

/-- `ComplaintSystem.load_from_firebase` (src/app.py lines 282-297) as it
runs in a fresh session (no `complaints_db`, `complaint_queue`,
`processing_stack` or `complaint_counter` key exists yet in
`st.session_state`): the complaint collection read back from Firebase
becomes `complaints_db` (an empty read also leaves it empty), the queue
and stack start empty, and `complaint_counter` is initialised to `1`
unconditionally — it is not recovered from the loaded complaints. -/
def load_from_firebase_fresh (fb_complaints : List (String × Complaint))
    (ss : SessionState) : SessionState :=
  { ss with
    complaints_db := fb_complaints
    complaint_queue := []
    processing_stack := []
    complaint_counter := 1 }

/-- `AuthSystem.is_master_teacher(user_id)` (src/app.py lines 508-512). -/
def is_master_teacher (ss : SessionState) (user_id : String) : Bool :=
  if user_id == "admin" then true
  else
    match dictFind ss.teacher_db user_id with
    | some t => t.is_master
    | none => false

/-- `AuthSystem.list_complaints(current_user)` (src/app.py lines
514-532): the role-scoped visible subset of the complaint collection. -/
def list_complaints (ss : SessionState) (current_user : CurrentUser) :
    List Complaint :=
  let user_role := current_user.role
  let user_id := current_user.id
  let all_complaints := valuesOf ss.complaints_db
  if user_role == "admin" then
    all_complaints
  else if user_role == "parent" then
    all_complaints.filter (fun c => c.created_by == user_id)
  else if user_role == "teacher" then
    if is_master_teacher ss user_id then
      all_complaints
    else
      let teacher_categories :=
        match dictFind ss.teacher_db user_id with
        | some t => t.categories
        | none => []
      all_complaints.filter (fun c => teacher_categories.contains c.category)
  else
    []

/-- `AuthSystem.generate_teacher_code()` (src/app.py lines 410-415); the
random token `str(uuid.uuid4())[:8].upper()` is the input `code`. -/
def generate_teacher_code (ss : SessionState) (code : String) :
    String × SessionState :=
  (code, { ss with teacher_codes := insert code ss.teacher_codes })

/-- `AuthSystem.signup_teacher_with_code(teacher_id, password, name,
code)` (src/app.py lines 417-443). -/
def signup_teacher_with_code (ss : SessionState) (hash : String → String)
    (teacher_id password name code now : String) : SignupResult :=
  if code ∉ ss.teacher_codes then
    { success := false, message := "유효하지 않은 교사 가입 코드입니다.", state := ss }
  else if ss.user_db.any (fun p => p.1 == teacher_id) then
    { success := false, message := "이미 존재하는 사용자 ID입니다.", state := ss }
  else
    let user_data : UserData :=
      { password_hash := hash password
        role := "teacher"
        name := name
        student_name := none
        created_at := now }
    { success := true
      message := "교사 계정이 성공적으로 생성되었습니다!"
      state :=
        { ss with
          user_db := dictSet ss.user_db teacher_id user_data
          teacher_db := dictSet ss.teacher_db teacher_id
            { categories := [], is_master := false }
          teacher_codes := ss.teacher_codes.erase code } }

/-- The data-model invariant of §3 of the spec: the history is non-empty
and its last entry's status equals the complaint's current status. -/
def invariantHolds (c : Complaint) : Bool :=
  match c.history.getLast? with
  | none => false
  | some e => e.status == c.status

/-! ### Concrete fixtures used by witnesses and counterexamples -/

/-- Fixture: a complaint in category `academic` submitted by parent
`김철수`, as `create_complaint` would build it. -/
def sampleComplaint1 : Complaint :=
  { id := "1", title := "수업 일정 문의", content := "일정이 궁금합니다"
    category := "academic", urgency := "보통", urgency_value := 2
    status := "대기중", created_by := "김철수", created_at := "t1"
    assigned_to := none
    history := [{ status := "대기중", timestamp := "t1", note := "민원 등록됨" }] }

/-- Fixture: a complaint in category `meal` submitted by parent
`이영희`. -/
def sampleComplaint2 : Complaint :=
  { id := "2", title := "급식 관련 문의", content := "급식이 궁금합니다"
    category := "meal", urgency := "긴급", urgency_value := 1
    status := "대기중", created_by := "이영희", created_at := "t2"
    assigned_to := none
    history := [{ status := "대기중", timestamp := "t2", note := "민원 등록됨" }] }

/-- Fixture: the default admin account record. -/
def adminUser : UserData :=
  { password_hash := "h0", role := "admin", name := "시스템 관리자"
    student_name := none, created_at := "t0" }

/-- Fixture: a session holding the two sample complaints, the default
admin account, no teacher assignments and no active teacher codes. -/
def sampleState : SessionState :=
  { complaints_db := [("1", sampleComplaint1), ("2", sampleComplaint2)]
    complaint_queue := [(2, 1), (1, 2)]
    processing_stack := []
    complaint_counter := 3
    user_db := [("admin", adminUser)]
    teacher_db := []
    teacher_codes := ∅ }

/-- Fixture: `sampleState` with one active teacher signup code. -/
def codeState : SessionState :=
  { sampleState with teacher_codes := {"A1B2C3D4"} }

/-- Fixture: `sampleState` where a non-master teacher assignment with
categories `meal` and `health` is recorded under the identifier
`admin`. -/
def teacherAdminState : SessionState :=
  { sampleState with
    teacher_db := [("admin", { categories := ["meal", "health"], is_master := false })] }

/-- Fixture: a logged-in parent user for `김철수`. -/
def parentKim : CurrentUser :=
  { id := "김철수", name := "김철수 학부모", role := "parent"
    permissions := ["민원등록", "내민원조회", "상태확인"] }

/-- Fixture: a logged-in teacher session whose identifier is the literal
`admin`. -/
def teacherAdminUser : CurrentUser :=
  { id := "admin", name := "담임", role := "teacher"
    permissions := ["내민원조회", "상태확인", "전체민원조회", "민원할당", "상태변경"] }

/-- Fixture: a fresh session before any load, as built by the
session-state defaults. -/
def freshSession : SessionState :=
  { complaints_db := []
    complaint_queue := []
    processing_stack := []
    complaint_counter := 1
    user_db := [("admin", adminUser)]
    teacher_db := []
    teacher_codes := ∅ }

/-- Fixture: a non-master teacher account `박교사` assigned the
categories `meal` and `health`. -/
def teacherPark : CurrentUser :=
  { id := "박교사", name := "박선생", role := "teacher"
    permissions := ["내민원조회", "상태확인", "전체민원조회", "민원할당", "상태변경"] }

/-- Fixture: a teacher account `최교사` that has no assignment record. -/
def teacherChoi : CurrentUser :=
  { id := "최교사", name := "최선생", role := "teacher"
    permissions := ["내민원조회", "상태확인", "전체민원조회", "민원할당", "상태변경"] }

/-- Fixture: `sampleState` with a non-master assignment for `박교사`
covering `meal` and `health`. -/
def assignedState : SessionState :=
  { sampleState with
    teacher_db := [("박교사", { categories := ["meal", "health"], is_master := false })] }

/-- Fixture: a logged-in session whose role string is none of the three
recognised roles. -/
def ghostUser : CurrentUser :=
  { id := "유령", name := "유령", role := "guest", permissions := [] }

/-- Fixture: the complaint that `create_complaint` builds from
`sampleState` (counter `3`) for the arguments used in the invariant
witness. -/
def createdComplaint3 : Complaint :=
  { id := "3", title := "신규 문의", content := "본문"
    category := "general", urgency := "보통", urgency_value := 2
    status := "대기중", created_by := "김철수", created_at := "t3"
    assigned_to := none
    history := [{ status := "대기중", timestamp := "t3", note := "민원 등록됨" }] }

/-- Fixture: `sampleComplaint2` after re-applying its own current
status `대기중` with a note, as `update_complaint_status` stores it. -/
def sameStatusUpdated : Complaint :=
  { sampleComplaint2 with
    status := "대기중"
    history := sampleComplaint2.history ++
      [{ status := "대기중", timestamp := "t7", note := "같은 상태" }] }

/-! ### Dictionary and operation lemmas -/

/-- Overwriting the entry of a present key makes it what `find?` on the
key returns. -/
lemma find?_overwrite {α : Type} (v : α) (k : String) :
    ∀ db : List (String × α), db.any (fun p => p.1 == k) = true →
      (db.map (fun p => if p.1 == k then (k, v) else p)).find?
        (fun p => p.1 == k) = some (k, v) := by
  intro db
  induction db with
  | nil => intro h; simp at h
  | cons p ps ih =>
    intro h
    by_cases hp : (p.1 == k) = true
    · rw [List.map_cons, if_pos hp, List.find?_cons_of_pos]
      exact beq_self_eq_true k
    · rw [List.map_cons, if_neg hp, List.find?_cons_of_neg (p := fun q : String × α => q.1 == k) _ hp]
      simp only [List.any_cons, hp, Bool.false_or] at h
      exact ih h

/-- Looking up the key just written by `dictSet` yields the new value. -/
lemma dictFind_dictSet_self {α : Type} (db : List (String × α)) (k : String)
    (v : α) : dictFind (dictSet db k v) k = some v := by
  unfold dictFind dictSet
  by_cases h : db.any (fun p => p.1 == k) = true
  · rw [if_pos h, find?_overwrite v k db h]
    rfl
  · rw [if_neg h]
    have hnone : db.find? (fun p => p.1 == k) = none := by
      rw [List.find?_eq_none]
      intro x hx hpx
      exact h (List.any_eq_true.mpr ⟨x, hx, hpx⟩)
    rw [List.find?_append, hnone]
    simp

/-- Every value of a dict after `dictSet` is the written value or one of
the previous values. -/
lemma mem_valuesOf_dictSet {α : Type} {db : List (String × α)} {k : String}
    {v c : α} (h : c ∈ valuesOf (dictSet db k v)) : c = v ∨ c ∈ valuesOf db := by
  unfold valuesOf dictSet at h
  unfold valuesOf
  by_cases hk : db.any (fun p => p.1 == k) = true
  · rw [if_pos hk, List.map_map] at h
    rcases List.mem_map.mp h with ⟨p, hp, hc⟩
    by_cases hpk : (p.1 == k) = true
    · left
      simp only [Function.comp, hpk, if_pos] at hc
      exact hc.symm
    · right
      refine List.mem_map.mpr ⟨p, hp, ?_⟩
      simpa [Function.comp, hpk] using hc
  · rw [if_neg hk, List.map_append] at h
    rcases List.mem_append.mp h with h1 | h2
    · right; exact h1
    · left
      have h3 : c = v := by simpa using h2
      exact h3

/-- `update_complaint_status` on an id absent from the collection. -/
lemma update_missing {ss : SessionState} {cid : String}
    (h : dictFind ss.complaints_db cid = none) (ns note now : String) :
    update_complaint_status ss cid ns note now =
      { success := false, state := ss, writes := [] } := by
  unfold update_complaint_status
  rw [h]

/-- `update_complaint_status` on an id present in the collection:
the status is set, one history entry is appended, the stack is possibly
pruned, and one Firebase patch is attempted. -/
lemma update_found {ss : SessionState} {cid : String} {c : Complaint}
    (h : dictFind ss.complaints_db cid = some c) (ns note now : String) :
    update_complaint_status ss cid ns note now =
      { success := true
        state :=
          { ss with
            complaints_db := dictSet ss.complaints_db cid
              { c with
                status := ns
                history := c.history ++
                  [{ status := ns, timestamp := now
                     note := if note == "" then "상태 변경: " ++ ns else note }] }
            processing_stack :=
              if ns == "완료" && ss.processing_stack.contains (strToNat cid)
              then ss.processing_stack.erase (strToNat cid)
              else ss.processing_stack }
        writes := [FirebaseOp.updateComplaint cid ns
          (c.history ++
            [{ status := ns, timestamp := now
               note := if note == "" then "상태 변경: " ++ ns else note }])] } := by
  unfold update_complaint_status
  rw [h]

/-- A failed code check makes `signup_teacher_with_code` return the
invalid-code failure and leave the state unchanged. -/
lemma signup_invalid_code {ss : SessionState} {hash : String → String}
    {tid pw nm code now : String} (h : code ∉ ss.teacher_codes) :
    signup_teacher_with_code ss hash tid pw nm code now =
      { success := false, message := "유효하지 않은 교사 가입 코드입니다.", state := ss } := by
  unfold signup_teacher_with_code
  rw [if_pos h]

/-- A successful `signup_teacher_with_code` consumed its code: the code
was active before and the new active set is the old one with the code
erased. -/
lemma signup_success_consumes_code {ss : SessionState} {hash : String → String}
    {tid pw nm code now : String}
    (h : (signup_teacher_with_code ss hash tid pw nm code now).success = true) :
    code ∈ ss.teacher_codes ∧
    (signup_teacher_with_code ss hash tid pw nm code now).state.teacher_codes =
      ss.teacher_codes.erase code := by
  unfold signup_teacher_with_code at h ⊢
  by_cases h1 : code ∉ ss.teacher_codes
  · rw [if_pos h1] at h
    simp at h
  · rw [if_neg h1] at h ⊢
    by_cases h2 : ss.user_db.any (fun p => p.1 == tid) = true
    · rw [if_pos h2] at h
      simp at h
    · rw [if_neg h2] at h ⊢
      exact ⟨not_not.mp h1, rfl⟩

/-- A complaint whose history's last entry carries the complaint's
current status satisfies the data-model invariant. -/
lemma invariantHolds_of_getLast {c : Complaint} {e : HistoryEntry}
    (h1 : c.history.getLast? = some e) (h2 : e.status = c.status) :
    invariantHolds c = true := by
  unfold invariantHolds
  rw [h1]
  show (e.status == c.status) = true
  rw [h2]
  exact beq_self_eq_true c.status

/-! ### Claims -/

/-- Claim C1: from any session whose complaints all have a non-empty
history ending in their current status, both lifecycle operations
preserve the property — after `create_complaint` and after
`update_complaint_status` every complaint's `history` is non-empty and
the status of its last history entry equals the complaint's current
`status`. -/
theorem history_last_matches_status
    (ss : SessionState) (title content category urgency uid now1 : String)
    (cid ns note now2 : String)
    (hinv : ∀ c ∈ valuesOf ss.complaints_db, invariantHolds c = true) :
    (∀ c ∈ valuesOf (create_complaint ss title content category urgency uid now1).state.complaints_db,
        invariantHolds c = true) ∧
    (∀ c ∈ valuesOf (update_complaint_status ss cid ns note now2).state.complaints_db,
        invariantHolds c = true) := by
  constructor
  · intro c hc
    simp only [create_complaint] at hc
    rcases mem_valuesOf_dictSet hc with rfl | hmem
    · exact invariantHolds_of_getLast (List.getLast?_concat []) rfl
    · exact hinv c hmem
  · cases hfind : dictFind ss.complaints_db cid with
    | none =>
      rw [update_missing hfind]
      exact hinv
    | some c0 =>
      intro c hc
      rw [update_found hfind] at hc
      rcases mem_valuesOf_dictSet hc with rfl | hmem
      · exact invariantHolds_of_getLast (List.getLast?_concat c0.history) rfl
      · exact hinv c hmem

/-- Witness for C1: the invariant evaluated on the concrete complaint
created from `sampleState` and on the concrete complaint updated in
`sampleState`. -/
theorem history_last_matches_status_witness :
    invariantHolds createdComplaint3 = true ∧
    invariantHolds
      { sampleComplaint1 with
        status := "완료"
        history := sampleComplaint1.history ++
          [{ status := "완료", timestamp := "t4", note := "상태 변경: 완료" }] } = true :=
  ⟨(history_last_matches_status sampleState "신규 문의" "본문" "general" "보통"
      "김철수" "t3" "1" "완료" "" "t4" (by decide)).1 createdComplaint3 (by decide),
   (history_last_matches_status sampleState "신규 문의" "본문" "general" "보통"
      "김철수" "t3" "1" "완료" "" "t4" (by decide)).2 _ (by decide)⟩

/-- Claim C2: for every user with role `parent` and every complaint
collection, `list_complaints` returns exactly the complaints whose
`created_by` equals the user's identifier — a complaint is in the result
precisely when it is in the collection and was created by that user. -/
theorem parent_sees_exactly_own_complaints
    (ss : SessionState) (user : CurrentUser) (h : user.role = "parent")
    (c : Complaint) :
    c ∈ list_complaints ss user ↔
      (c ∈ valuesOf ss.complaints_db ∧ c.created_by = user.id) := by
  simp only [list_complaints, h]
  rw [if_neg (by decide), if_pos (by decide)]
  simp [List.mem_filter]

/-- Witness for C2: the parent `김철수` and the two-complaint store. -/
theorem parent_sees_exactly_own_complaints_witness :
    sampleComplaint1 ∈ list_complaints sampleState parentKim ↔
      (sampleComplaint1 ∈ valuesOf sampleState.complaints_db ∧
        sampleComplaint1.created_by = parentKim.id) :=
  parent_sees_exactly_own_complaints sampleState parentKim rfl sampleComplaint1

/-- Claim C9: `update_complaint_status` called with an id that
references no existing complaint returns the failure flag, leaves the
whole session state unchanged, and attempts no Firebase write. -/
theorem update_unknown_id_is_noop
    (ss : SessionState) (cid ns note now : String)
    (h : dictFind ss.complaints_db cid = none) :
    update_complaint_status ss cid ns note now =
      { success := false, state := ss, writes := [] } :=
  update_missing h ns note now

/-- Witness for C9: updating the absent id `999` of `sampleState`. -/
theorem update_unknown_id_is_noop_witness :
    update_complaint_status sampleState "999" "완료" "메모" "t9" =
      { success := false, state := sampleState, writes := [] } :=
  update_unknown_id_is_noop sampleState "999" "완료" "메모" "t9" (by decide)

/-- Claim C10: for every user whose role is none of `admin`, `parent`
and `teacher`, `list_complaints` returns the empty list. -/
theorem unknown_role_sees_nothing
    (ss : SessionState) (user : CurrentUser)
    (h1 : user.role ≠ "admin") (h2 : user.role ≠ "parent")
    (h3 : user.role ≠ "teacher") :
    list_complaints ss user = [] := by
  simp only [list_complaints]
  rw [if_neg (by simpa using h1), if_neg (by simpa using h2),
    if_neg (by simpa using h3)]

/-- Witness for C10: a logged-in user with the unrecognised role
`guest`. -/
theorem unknown_role_sees_nothing_witness :
    list_complaints sampleState ghostUser = [] :=
  unknown_role_sees_nothing sampleState ghostUser (by decide) (by decide) (by decide)

/-- Claim C3 fails as stated: the claim quantifies over every user with
role `teacher` whose assignment record has `is_master = false`, but
`is_master_teacher` treats the identifier `admin` as master before ever
consulting the assignment record.  In `teacherAdminState` the assignment
recorded under `admin` covers only `meal` and `health` with
`is_master = false`, yet the teacher session with id `admin` sees the
`academic` complaint. -/
theorem teacher_category_scope_counterexample :
    teacherAdminUser.role = "teacher" ∧
    dictFind teacherAdminState.teacher_db teacherAdminUser.id =
      some { categories := ["meal", "health"], is_master := false } ∧
    sampleComplaint1 ∈ list_complaints teacherAdminState teacherAdminUser ∧
    (["meal", "health"] : List String).contains sampleComplaint1.category = false := by
  decide

/-- Claim C3 (amended): for every user with role `teacher` whose
identifier is not the literal `admin`: if the teacher's assignment
record has `is_master = false` then `list_complaints` returns exactly
the complaints whose category lies in the assigned category list, and if
the teacher has no assignment record at all the result is the empty
list. -/
theorem teacher_category_scope
    (ss : SessionState) (user : CurrentUser)
    (hrole : user.role = "teacher") (hid : user.id ≠ "admin") :
    (∀ a, dictFind ss.teacher_db user.id = some a → a.is_master = false →
      ∀ c, c ∈ list_complaints ss user ↔
        (c ∈ valuesOf ss.complaints_db ∧ c.category ∈ a.categories)) ∧
    (dictFind ss.teacher_db user.id = none → list_complaints ss user = []) := by
  have hidb : (user.id == "admin") = false := by simpa using hid
  constructor
  · intro a ha hm c
    have hmaster : is_master_teacher ss user.id = false := by
      unfold is_master_teacher
      rw [if_neg (by simp [hidb]), ha]
      exact hm
    simp only [list_complaints, hrole]
    rw [if_neg (by decide), if_neg (by decide), if_pos (by decide),
      if_neg (by simp [hmaster]), ha]
    simp [List.mem_filter]
  · intro hnone
    have hmaster : is_master_teacher ss user.id = false := by
      unfold is_master_teacher
      rw [if_neg (by simp [hidb]), hnone]
    simp only [list_complaints, hrole]
    rw [if_neg (by decide), if_neg (by decide), if_pos (by decide),
      if_neg (by simp [hmaster]), hnone]
    simp

/-- Witness for the amended C3: in `assignedState` the non-master
teacher `박교사` (assigned `meal`, `health`) and the unassigned teacher
`최교사`. -/
theorem teacher_category_scope_witness :
    (sampleComplaint2 ∈ list_complaints assignedState teacherPark ↔
      (sampleComplaint2 ∈ valuesOf assignedState.complaints_db ∧
        sampleComplaint2.category ∈
          (TeacherAssignment.mk ["meal", "health"] false).categories)) ∧
    list_complaints assignedState teacherChoi = [] :=
  ⟨(teacher_category_scope assignedState teacherPark rfl (by decide)).1
      (TeacherAssignment.mk ["meal", "health"] false) (by decide) rfl sampleComplaint2,
   (teacher_category_scope assignedState teacherChoi rfl (by decide)).2 (by decide)⟩

/-- Claim C4 fails as stated: `update_complaint_status` performs no
validation of the new status.  On the existing complaint `1` the status
string `엉뚱한상태`, which is none of the three enumerated statuses, is
accepted: the call succeeds instead of failing, and the complaint's
status becomes that string. -/
theorem update_status_validation_counterexample :
    (["대기중", "처리중", "완료"] : List String).contains "엉뚱한상태" = false ∧
    (update_complaint_status sampleState "1" "엉뚱한상태" "" "t4").success = true ∧
    dictFind (update_complaint_status sampleState "1" "엉뚱한상태" "" "t4").state.complaints_db "1" =
      some { sampleComplaint1 with
             status := "엉뚱한상태"
             history := sampleComplaint1.history ++
               [{ status := "엉뚱한상태", timestamp := "t4", note := "상태 변경: 엉뚱한상태" }] } := by
  decide

/-- Claim C4 (amended): `update_complaint_status` does not validate the
new status and never fails with a validation error — for every existing
complaint it succeeds with every status string whatsoever, storing that
string verbatim as the new status; the only failure mode of the
operation is an unknown complaint id. -/
theorem update_status_no_validation
    (ss : SessionState) (cid ns note now : String) (c : Complaint)
    (h : dictFind ss.complaints_db cid = some c) :
    (update_complaint_status ss cid ns note now).success = true ∧
    dictFind (update_complaint_status ss cid ns note now).state.complaints_db cid =
      some { c with
             status := ns
             history := c.history ++
               [{ status := ns, timestamp := now
                  note := if note == "" then "상태 변경: " ++ ns else note }] } := by
  rw [update_found h]
  exact ⟨rfl, dictFind_dictSet_self ss.complaints_db cid _⟩

/-- Witness for the amended C4: the off-enumeration status `아무상태`
applied to complaint `2`. -/
theorem update_status_no_validation_witness :
    (update_complaint_status sampleState "2" "아무상태" "메모" "t5").success = true ∧
    dictFind (update_complaint_status sampleState "2" "아무상태" "메모" "t5").state.complaints_db "2" =
      some { sampleComplaint2 with
             status := "아무상태"
             history := sampleComplaint2.history ++
               [{ status := "아무상태", timestamp := "t5"
                  note := if "메모" == "" then "상태 변경: " ++ "아무상태" else "메모" }] } :=
  update_status_no_validation sampleState "2" "아무상태" "메모" "t5" sampleComplaint2 (by decide)

/-- Claim C5: the code loses id uniqueness across a reload.  After a
fresh session reloads a persisted store that already contains the
complaint with id `1`, `complaint_counter` restarts at `1` (it is not
recovered from the loaded data), so the next `create_complaint` returns
the already-used id `1` and silently overwrites the stored complaint. -/
theorem create_id_reuse_after_reload :
    dictFind (load_from_firebase_fresh [("1", sampleComplaint1)] freshSession).complaints_db "1" =
      some sampleComplaint1 ∧
    (create_complaint (load_from_firebase_fresh [("1", sampleComplaint1)] freshSession)
        "두번째 민원" "다른 내용" "general" "보통" "이영희" "t9").complaint_id = "1" ∧
    dictFind (create_complaint (load_from_firebase_fresh [("1", sampleComplaint1)] freshSession)
        "두번째 민원" "다른 내용" "general" "보통" "이영희" "t9").state.complaints_db "1" ≠
      some sampleComplaint1 := by
  decide

/-- Claim C6: `update_complaint_status` on an id that references no
complaint returns the failure flag, and on an existing complaint it
succeeds and appends a history entry whose note, when the supplied note
is empty, is the generated placeholder `상태 변경: <newStatus>` (the
source rendering of "status changed: <newStatus>"). -/
theorem update_status_missing_id_and_default_note
    (ss : SessionState) (cid1 cid2 ns now : String) (c : Complaint)
    (h1 : dictFind ss.complaints_db cid1 = none)
    (h2 : dictFind ss.complaints_db cid2 = some c) :
    (update_complaint_status ss cid1 ns "" now).success = false ∧
    (update_complaint_status ss cid2 ns "" now).success = true ∧
    dictFind (update_complaint_status ss cid2 ns "" now).state.complaints_db cid2 =
      some { c with
             status := ns
             history := c.history ++
               [{ status := ns, timestamp := now, note := "상태 변경: " ++ ns }] } := by
  refine ⟨?_, ?_, ?_⟩
  · rw [update_missing h1]
  · rw [update_found h2]
  · rw [update_found h2]
    have hfind := dictFind_dictSet_self ss.complaints_db cid2
      { c with
        status := ns
        history := c.history ++
          [{ status := ns, timestamp := now
             note := if "" == "" then "상태 변경: " ++ ns else "" }] }
    simpa using hfind

/-- Witness for C6: the absent id `999` and the present id `1` of
`sampleState`. -/
theorem update_status_missing_id_and_default_note_witness :
    (update_complaint_status sampleState "999" "처리중" "" "t6").success = false ∧
    (update_complaint_status sampleState "1" "처리중" "" "t6").success = true ∧
    dictFind (update_complaint_status sampleState "1" "처리중" "" "t6").state.complaints_db "1" =
      some { sampleComplaint1 with
             status := "처리중"
             history := sampleComplaint1.history ++
               [{ status := "처리중", timestamp := "t6", note := "상태 변경: " ++ "처리중" }] } :=
  update_status_missing_id_and_default_note sampleState "999" "1" "처리중" "t6"
    sampleComplaint1 (by decide) (by decide)

/-- Claim C7: every successful `update_complaint_status` call — also
when the new status equals the complaint's current status — grows the
complaint's history by exactly one entry: the stored history has length
one greater, its prefix of the old length is the old history unchanged
and in order, and its last entry is the newly appended one. -/
theorem update_appends_exactly_one_entry
    (ss : SessionState) (cid ns note now : String) (c : Complaint)
    (h : dictFind ss.complaints_db cid = some c) :
    (update_complaint_status ss cid ns note now).success = true ∧
    ∀ c', dictFind (update_complaint_status ss cid ns note now).state.complaints_db cid = some c' →
      c'.history.length = c.history.length + 1 ∧
      c'.history.take c.history.length = c.history ∧
      c'.history.getLast? = some
        { status := ns, timestamp := now
          note := if note == "" then "상태 변경: " ++ ns else note } := by
  rw [update_found h]
  refine ⟨rfl, ?_⟩
  intro c' hc'
  rw [dictFind_dictSet_self] at hc'
  obtain rfl : _ = c' := Option.some.inj hc'
  refine ⟨by simp, ?_, List.getLast?_concat c.history⟩
  exact List.take_left c.history _

/-- Witness for C7: re-applying the current status `대기중` of complaint
`2` still appends one entry. -/
theorem update_appends_exactly_one_entry_witness :
    sameStatusUpdated.history.length = sampleComplaint2.history.length + 1 ∧
    sameStatusUpdated.history.take sampleComplaint2.history.length =
      sampleComplaint2.history ∧
    sameStatusUpdated.history.getLast? = some
      { status := "대기중", timestamp := "t7"
        note := if "같은 상태" == "" then "상태 변경: " ++ "대기중" else "같은 상태" } :=
  (update_appends_exactly_one_entry sampleState "2" "대기중" "같은 상태" "t7"
    sampleComplaint2 (by decide)).2 sameStatusUpdated (by decide)

/-- Claim C8: teacher signup codes are single-use.  If a signup
consuming code `X` succeeds, `X` is no longer in the active code set,
and any following signup attempt with the same code `X` — by any
applicant — fails with the invalid-code error. -/
theorem teacher_code_single_use
    (ss : SessionState) (hash : String → String)
    (tid pw nm code now tid2 pw2 nm2 now2 : String)
    (h : (signup_teacher_with_code ss hash tid pw nm code now).success = true) :
    code ∉ (signup_teacher_with_code ss hash tid pw nm code now).state.teacher_codes ∧
    (signup_teacher_with_code (signup_teacher_with_code ss hash tid pw nm code now).state
        hash tid2 pw2 nm2 code now2).success = false ∧
    (signup_teacher_with_code (signup_teacher_with_code ss hash tid pw nm code now).state
        hash tid2 pw2 nm2 code now2).message = "유효하지 않은 교사 가입 코드입니다." := by
  obtain ⟨hmem, hcodes⟩ := signup_success_consumes_code h
  have hnot : code ∉ (signup_teacher_with_code ss hash tid pw nm code now).state.teacher_codes := by
    rw [hcodes]
    exact Finset.not_mem_erase code ss.teacher_codes
  refine ⟨hnot, ?_, ?_⟩
  · rw [signup_invalid_code hnot]
  · rw [signup_invalid_code hnot]

/-- Witness for C8: the code `A1B2C3D4` of `codeState` is consumed by
`박교사` and then rejected for `최교사`. -/
theorem teacher_code_single_use_witness :
    ("A1B2C3D4" ∉ (signup_teacher_with_code codeState (fun s => s) "박교사" "pw"
        "박선생" "A1B2C3D4" "t7").state.teacher_codes) ∧
    (signup_teacher_with_code
        (signup_teacher_with_code codeState (fun s => s) "박교사" "pw" "박선생" "A1B2C3D4" "t7").state
        (fun s => s) "최교사" "pw2" "최선생" "A1B2C3D4" "t8").success = false ∧
    (signup_teacher_with_code
        (signup_teacher_with_code codeState (fun s => s) "박교사" "pw" "박선생" "A1B2C3D4" "t7").state
        (fun s => s) "최교사" "pw2" "최선생" "A1B2C3D4" "t8").message =
      "유효하지 않은 교사 가입 코드입니다." :=
  teacher_code_single_use codeState (fun s => s) "박교사" "pw" "박선생" "A1B2C3D4" "t7"
    "최교사" "pw2" "최선생" "t8" (by decide)
